import Mathlib

/-!
Verification of the SAR-Flood-Detection frontend against its specification.

The JavaScript sources under `frontend/src` are shallowly embedded below:
each JS function the claims mention becomes a Lean definition carrying the
same control flow; JS nullable values become `Option`, numbers become `ℚ`
(all comparisons in the relevant code are order comparisons, exact on `ℚ`),
and JS string truthiness (`""` and `null`/`undefined` are falsy) is made
explicit where the code relies on it.
-/

namespace SARFlood

/-- A GeoJSON geometry as seen by `validateAOI`: the embedding abstracts
`turf.polygon(geometry.coordinates)` + `turf.area` into whether the
polygon construction succeeds (`constructible`; a failed construction
throws in JS and lands in the `catch` branch) and, when it does, the
computed area in km². -/
structure Geometry where
  constructible : Bool
  areaKm2 : ℚ
deriving Repr, DecidableEq

/-- Result record of `validateAOI`: `{ isValid, error, area }`. -/
structure AOIValidation where
  isValid : Bool
  error : Option String
  area : ℚ
deriving Repr, DecidableEq

/-- Maximum AOI size checked by `validateAOI` (2500 km² = 50×50 km). -/
def MAX_AREA_KM2 : ℚ := 2500

/-- Minimum AOI size checked by `validateAOI` (0.01 km² = 100m × 100m). -/
def MIN_AREA_KM2 : ℚ := 1 / 100

/-- Embedding of `validateAOI` (frontend/src/utils/validator.js).
A `none` argument is the JS `!geometry` guard; a non-constructible
geometry is the `catch` branch around `turf.polygon`; otherwise the
area checks run in source order (too large, then too small). -/
def validateAOI (geometry : Option Geometry) : AOIValidation :=
  match geometry with
  | none => { isValid := false, error := some "No geometry provided", area := 0 }
  | some g =>
    if g.constructible = false then
      { isValid := false, error := some "Invalid geometry", area := 0 }
    else if g.areaKm2 > MAX_AREA_KM2 then
      { isValid := false
        error := some "AOI too large. Maximum allowed: 2500 km2 (50x50 km)"
        area := g.areaKm2 }
    else if g.areaKm2 < MIN_AREA_KM2 then
      { isValid := false
        error := some "AOI too small. Minimum allowed: 0.01 km2"
        area := g.areaKm2 }
    else
      { isValid := true, error := none, area := g.areaKm2 }

/-- C1: for every geometry passed to `validateAOI`, an absent or
non-constructible geometry yields `isValid = false`, a non-null error
and area 0; a constructible geometry is valid exactly when its area
lies in the inclusive range [0.01, 2500] km², and outside that range
the result is invalid with a descriptive (non-null) error. -/
theorem C1_validateAOI_range (geometry : Option Geometry) :
    ((geometry = none ∨ ∃ g, geometry = some g ∧ g.constructible = false) →
      (validateAOI geometry).isValid = false ∧
      (validateAOI geometry).error.isSome = true ∧
      (validateAOI geometry).area = 0) ∧
    (∀ g, geometry = some g → g.constructible = true →
      ((validateAOI geometry).isValid = true ↔
        MIN_AREA_KM2 ≤ g.areaKm2 ∧ g.areaKm2 ≤ MAX_AREA_KM2) ∧
      ((g.areaKm2 > MAX_AREA_KM2 ∨ g.areaKm2 < MIN_AREA_KM2) →
        (validateAOI geometry).isValid = false ∧
        (validateAOI geometry).error.isSome = true)) := by
  constructor
  · rintro (rfl | ⟨g, rfl, hg⟩)
    · simp [validateAOI]
    · simp [validateAOI, hg]
  · rintro g rfl hg
    constructor
    · constructor
      · intro hvalid
        by_contra hcon
        push_neg at hcon
        rcases le_or_lt MIN_AREA_KM2 g.areaKm2 with hle | hlt
        · have hgt : g.areaKm2 > MAX_AREA_KM2 := lt_of_not_le fun h => absurd h (by
            intro h; exact absurd (hcon hle) (not_lt_of_le h))
          simp [validateAOI, hg, hgt] at hvalid
        · rcases le_or_lt g.areaKm2 MAX_AREA_KM2 with hle2 | hgt2
          · simp [validateAOI, hg, not_lt_of_le hle2, hlt] at hvalid
          · simp [validateAOI, hg, hgt2] at hvalid
      · rintro ⟨hmin, hmax⟩
        simp [validateAOI, hg, not_lt_of_le hmax, not_lt_of_le hmin]
    · rintro (hgt | hlt)
      · simp [validateAOI, hg, hgt]
      · rcases le_or_lt g.areaKm2 MAX_AREA_KM2 with hle | hgt2
        · simp [validateAOI, hg, not_lt_of_le hle, hlt]
        · simp [validateAOI, hg, hgt2]

/-- Witness for C1 at concrete inputs: a 5 km² constructible polygon is
accepted, and the absent-geometry case is rejected with an error. -/
theorem C1_validateAOI_range_witness :
    (validateAOI (some ⟨true, 5⟩)).isValid = true ∧
    (validateAOI none).isValid = false := by
  refine ⟨?_, ?_⟩
  · exact ((C1_validateAOI_range (some ⟨true, 5⟩)).2 ⟨true, 5⟩ rfl rfl).1.mpr
      (by constructor <;> norm_num [MIN_AREA_KM2, MAX_AREA_KM2])
  · exact ((C1_validateAOI_range none).1 (Or.inl rfl)).1

/-! ## Application state (frontend/src App component) -/

/-- The `advancedParams` record held in App state: six independently
nullable detection-parameter overrides, in JS insertion order. -/
structure AdvancedParams where
  vv_threshold : Option ℚ
  vh_threshold : Option ℚ
  vv_vh_diff : Option ℚ
  slope_max : Option ℚ
  min_area_pixels : Option ℚ
  texture_window : Option ℚ
deriving Repr, DecidableEq

/-- A GeoJSON feature of the result's polygon collection; the frontend
only counts features, each being a polygon tagged with its source
connected component. -/
structure Feature where
  sourceComponent : ℕ
deriving Repr, DecidableEq

/-- The `water_polygons` GeoJSON FeatureCollection of a detection
result. -/
structure FeatureCollection where
  features : List Feature
deriving Repr, DecidableEq

/-- The `metadata` object of a detection result, with the fields
`ResultsPanel` reads; nullable fields are those the panel guards with
`?.` or a truthiness test. -/
structure Metadata where
  acquisition_date : Option String
  water_area_km2 : Option ℚ
  water_percentage : Option ℚ
  processing_time_seconds : ℚ
  aoi_area_km2 : Option ℚ
  parameters_used : Option (List (String × ℚ))
  warning : Option String
deriving Repr, DecidableEq

/-- A detection result as consumed by the frontend: a nullable polygon
collection and a metadata object. -/
structure DetectionResult where
  water_polygons : Option FeatureCollection
  metadata : Metadata
deriving Repr, DecidableEq

/-- The App component's state hooks relevant to AOI handling and
detection. `selectedAoi` stands for the polygon built from the selected
test location's coordinates (`{type: Polygon, coordinates:
[selectedAoi.coordinates]}`). -/
structure AppState where
  selectedAoi : Option Geometry
  drawnAoi : Option Geometry
  loading : Bool
  processingStage : Option String
  results : Option DetectionResult
  error : Option String
  advancedParams : AdvancedParams
deriving Repr, DecidableEq

/-- Embedding of `handleAoiSelect`: stores the selection (possibly null,
as `TestAoiSelector` calls `onSelect(null)` for the blank option), clears
the drawn AOI, the previous results and the previous error. -/
def handleAoiSelect (s : AppState) (aoi : Option Geometry) : AppState :=
  { s with selectedAoi := aoi, drawnAoi := none, results := none, error := none }

/-- Embedding of `handleAoiDraw`: stores the drawn geometry (null on
deletion), clears the selected AOI, the previous results and error. -/
def handleAoiDraw (s : AppState) (geometry : Option Geometry) : AppState :=
  { s with drawnAoi := geometry, selectedAoi := none, results := none, error := none }

/-- The `currentAoi` computation at the top of `handleDetectWater`:
`drawnAoi || (selectedAoi ? polygonOf(selectedAoi) : null)`. -/
def currentAoi (s : AppState) : Option Geometry :=
  match s.drawnAoi with
  | some g => some g
  | none => s.selectedAoi

/-- One optional entry of the request parameter object: included exactly
when the value is non-null. -/
def optEntry (key : String) (value : Option ℚ) : List (String × ℚ) :=
  match value with
  | some v => [(key, v)]
  | none => []

/-- The parameter-filtering loop of `handleDetectWater`: for each key of
`advancedParams`, include it in the request body iff its value is not
null, preserving JS key order. -/
def buildParams (p : AdvancedParams) : List (String × ℚ) :=
  optEntry "vv_threshold" p.vv_threshold ++
  optEntry "vh_threshold" p.vh_threshold ++
  optEntry "vv_vh_diff" p.vv_vh_diff ++
  optEntry "slope_max" p.slope_max ++
  optEntry "min_area_pixels" p.min_area_pixels ++
  optEntry "texture_window" p.texture_window

/-- Field lookup of `advancedParams` by JS key name (unknown keys do not
exist on the record, hence `none`). -/
def getParam (p : AdvancedParams) (key : String) : Option ℚ :=
  if key = "vv_threshold" then p.vv_threshold
  else if key = "vh_threshold" then p.vh_threshold
  else if key = "vv_vh_diff" then p.vv_vh_diff
  else if key = "slope_max" then p.slope_max
  else if key = "min_area_pixels" then p.min_area_pixels
  else if key = "texture_window" then p.texture_window
  else none

/-- The POST body sent to `/detect-water`: the AOI geometry plus the
filtered parameter entries. -/
structure Request where
  geometry : Geometry
  params : List (String × ℚ)
deriving Repr, DecidableEq

/-- Embedding of the synchronous prefix of `handleDetectWater`: returns
the updated App state together with the request issued to the backend,
`none` when the function returns early without calling `detectWater`. -/
def handleDetectWater (s : AppState) : AppState × Option Request :=
  match currentAoi s with
  | none =>
    ({ s with error := some "Please draw an AOI or select a test location" }, none)
  | some aoi =>
    let validation := validateAOI (some aoi)
    if validation.isValid = false then
      ({ s with error := validation.error }, none)
    else
      ({ s with loading := true, error := none, results := none,
                processingStage := some "imagery" },
       some { geometry := aoi, params := buildParams s.advancedParams })

/-- C3: `handleDetectWater` issues a POST to `/detect-water` exactly when
an AOI exists and `validateAOI` accepts it; with a missing or invalid
AOI it sets an error and sends nothing, so every issued request carries
an AOI within the size bounds. -/
theorem C3_handleDetectWater_guard (s : AppState) :
    ((handleDetectWater s).2.isSome = true ↔
      ∃ g, currentAoi s = some g ∧ (validateAOI (some g)).isValid = true) ∧
    (currentAoi s = none →
      (handleDetectWater s).1.error = some "Please draw an AOI or select a test location" ∧
      (handleDetectWater s).2 = none) ∧
    (∀ g, currentAoi s = some g → (validateAOI (some g)).isValid = false →
      (handleDetectWater s).1.error = (validateAOI (some g)).error ∧
      (handleDetectWater s).2 = none) ∧
    (∀ r, (handleDetectWater s).2 = some r →
      MIN_AREA_KM2 ≤ r.geometry.areaKm2 ∧ r.geometry.areaKm2 ≤ MAX_AREA_KM2) := by
  refine ⟨?_, ?_, ?_, ?_⟩
  · constructor
    · intro hsome
      match hc : currentAoi s with
      | none => simp [handleDetectWater, hc] at hsome
      | some g =>
        refine ⟨g, rfl, ?_⟩
        by_contra hval
        have hval' : (validateAOI (some g)).isValid = false := by
          cases h : (validateAOI (some g)).isValid
          · rfl
          · exact absurd h hval
        simp [handleDetectWater, hc, hval'] at hsome
    · rintro ⟨g, hc, hval⟩
      have hval' : ((validateAOI (some g)).isValid = false) = False := by
        simp [hval]
      simp [handleDetectWater, hc, hval]
  · intro hc
    simp [handleDetectWater, hc]
  · intro g hc hval
    simp [handleDetectWater, hc, hval]
  · intro r hr
    match hc : currentAoi s with
    | none => simp [handleDetectWater, hc] at hr
    | some g =>
      by_cases hval : (validateAOI (some g)).isValid = false
      · simp [handleDetectWater, hc, hval] at hr
      · have hval' : (validateAOI (some g)).isValid = true := by
          cases h : (validateAOI (some g)).isValid
          · exact absurd h hval
          · rfl
        have hgeom : r.geometry = g := by
          simp [handleDetectWater, hc, hval'] at hr
          rw [← hr]
        have hcons : g.constructible = true := by
          by_contra hcon
          have : g.constructible = false := by
            cases h : g.constructible
            · rfl
            · exact absurd h hcon
          have := ((C1_validateAOI_range (some g)).1 (Or.inr ⟨g, rfl, this⟩)).1
          rw [this] at hval'
          exact Bool.false_ne_true hval'
        have := ((C1_validateAOI_range (some g)).2 g rfl hcons).1.mp hval'
        rw [hgeom]
        exact this

/-- Witness for C3: a state with a valid drawn AOI issues a request. -/
theorem C3_handleDetectWater_guard_witness :
    MIN_AREA_KM2 ≤ (5 : ℚ) ∧ (5 : ℚ) ≤ MAX_AREA_KM2 := by
  exact (C3_handleDetectWater_guard
    { selectedAoi := none, drawnAoi := some ⟨true, 5⟩, loading := false,
      processingStage := none, results := none, error := none,
      advancedParams := ⟨none, none, none, none, none, none⟩ }).2.2.2
    ⟨⟨true, 5⟩, buildParams ⟨none, none, none, none, none, none⟩⟩ (by
      norm_num [handleDetectWater, currentAoi, validateAOI, MIN_AREA_KM2, MAX_AREA_KM2])

/-- Key/value membership in one optional parameter entry. -/
theorem mem_optEntry (k a : String) (v : Option ℚ) (b : ℚ) :
    ((a, b) ∈ optEntry k v) ↔ (a = k ∧ v = some b) := by
  cases v <;> simp [optEntry, eq_comm]

/-- C4: the request body built by `handleDetectWater` contains a key/value
entry exactly for those advanced parameters whose value is non-null; a
null field is omitted entirely. -/
theorem C4_params_nonnull (p : AdvancedParams) (key : String) (v : ℚ) :
    (key, v) ∈ buildParams p ↔ getParam p key = some v := by
  simp only [buildParams, List.mem_append, mem_optEntry]
  by_cases h1 : key = "vv_threshold"
  · subst h1; simp [getParam]
  · by_cases h2 : key = "vh_threshold"
    · subst h2; simp [getParam]
    · by_cases h3 : key = "vv_vh_diff"
      · subst h3; simp [getParam]
      · by_cases h4 : key = "slope_max"
        · subst h4; simp [getParam]
        · by_cases h5 : key = "min_area_pixels"
          · subst h5; simp [getParam]
          · by_cases h6 : key = "texture_window"
            · subst h6; simp [getParam]
            · simp [getParam, h1, h2, h3, h4, h5, h6]

/-- C9: after an AOI selection or drawing event, at most one of
`selectedAoi` and `drawnAoi` is non-null, and both `results` and
`error` are reset to null. -/
theorem C9_aoi_exclusivity (s : AppState) (aoi geometry : Option Geometry) :
    (((handleAoiSelect s aoi).selectedAoi = none ∨
      (handleAoiSelect s aoi).drawnAoi = none) ∧
      (handleAoiSelect s aoi).results = none ∧
      (handleAoiSelect s aoi).error = none) ∧
    (((handleAoiDraw s geometry).selectedAoi = none ∨
      (handleAoiDraw s geometry).drawnAoi = none) ∧
      (handleAoiDraw s geometry).results = none ∧
      (handleAoiDraw s geometry).error = none) := by
  exact ⟨⟨Or.inr rfl, rfl, rfl⟩, ⟨Or.inl rfl, rfl, rfl⟩⟩

/-! ## Progress indicator (frontend/src/components/ProgressIndicator.js) -/

/-- The record returned by `getStageInfo`. -/
structure StageInfo where
  text : String
  progress : ℚ
deriving Repr, DecidableEq

/-- Embedding of `getStageInfo`: a switch over the (nullable) `stage`
prop with a default branch. -/
def getStageInfo (stage : Option String) : StageInfo :=
  if stage = some "imagery" then { text := "Processing imagery...", progress := 33 }
  else if stage = some "filters" then { text := "Applying filters...", progress := 66 }
  else if stage = some "vectorizing" then { text := "Generating results...", progress := 100 }
  else { text := "Processing...", progress := 0 }

/-- C10: `getStageInfo` is total — for every stage value, including null
and unknown strings, it returns a record whose progress lies in [0, 100],
and every stage outside the known set maps to the default record
with text "Processing..." and progress 0. -/
theorem C10_getStageInfo_total (stage : Option String) :
    (0 ≤ (getStageInfo stage).progress ∧ (getStageInfo stage).progress ≤ 100) ∧
    (stage ≠ some "imagery" → stage ≠ some "filters" → stage ≠ some "vectorizing" →
      getStageInfo stage = { text := "Processing...", progress := 0 }) := by
  constructor
  · by_cases h1 : stage = some "imagery"
    · subst h1; decide
    · by_cases h2 : stage = some "filters"
      · subst h2; decide
      · by_cases h3 : stage = some "vectorizing"
        · subst h3; decide
        · norm_num [getStageInfo, h1, h2, h3]
  · intro h1 h2 h3
    simp [getStageInfo, h1, h2, h3]

/-- Witness for C10 at a concrete unknown stage value. -/
theorem C10_getStageInfo_total_witness :
    getStageInfo (some "coldstart") = { text := "Processing...", progress := 0 } :=
  (C10_getStageInfo_total (some "coldstart")).2 (by decide) (by decide) (by decide)

/-! ## API client (frontend/src/services/api.js) -/

/-- JS `a || b` on a string: the fallback is taken when `a` is the empty
string (falsy in JS). -/
def jsOrStr (a : String) (b : String) : String :=
  if a = "" then b else a

/-- JS `a || b` where `a` is a possibly-absent string field: the fallback
is taken when the field is `undefined`/`null` or the empty string. -/
def jsOr (a : Option String) (b : String) : String :=
  match a with
  | some s => jsOrStr s b
  | none => b

/-- An axios request failure as destructured by `detectWater`'s catch
block: `responseDetail = some d` when `error.response` exists with body
detail `d` (`none` inside for an absent `detail` field); `requestSent`
mirrors `error.request`; `message` is `error.message`. -/
structure AxiosFailure where
  responseDetail : Option (Option String)
  requestSent : Bool
  message : String
deriving Repr, DecidableEq

/-- Outcome of the POST to `/detect-water` as seen by the client. -/
inductive HttpOutcome where
  | success (data : DetectionResult)
  | failure (e : AxiosFailure)
deriving Repr, DecidableEq

/-- The message thrown by `detectWater` on a failed request, following
the catch block's three branches in source order. -/
def detectWaterErrorMessage (e : AxiosFailure) : String :=
  match e.responseDetail with
  | some detail => jsOr detail "Server error occurred"
  | none =>
    if e.requestSent then "No response from server. Please check your connection."
    else jsOrStr e.message "Failed to send request"

/-- Embedding of `detectWater`'s result: the response data on success, a
single thrown error (no retry) on failure. -/
def detectWater (outcome : HttpOutcome) : Except String DetectionResult :=
  match outcome with
  | .success data => .ok data
  | .failure e => .error (detectWaterErrorMessage e)

/-- C5 counterexample: a server response whose `detail` field is present
but equal to the empty string is not propagated verbatim — JS `||`
treats it as falsy and `detectWater` throws the fallback message
instead. -/
theorem C5_claim_counterexample :
    detectWater (HttpOutcome.failure ⟨some (some ""), true, "boom"⟩) =
      Except.error "Server error occurred" ∧
    "Server error occurred" ≠ "" := by
  constructor
  · rfl
  · decide

/-- C5 (amended): on a failed request `detectWater` throws exactly one
error: the server's `detail` verbatim when it is a non-empty string,
"Server error occurred" when the server responded but `detail` is absent
or empty, "No response from server. Please check your connection." when
no response was received, and otherwise the underlying error message
(falling back to "Failed to send request" when it is empty). -/
theorem C5_detectWater_error_mapping (e : AxiosFailure) :
    (∀ d, e.responseDetail = some d →
      detectWater (HttpOutcome.failure e) =
        Except.error (jsOr d "Server error occurred") ∧
      (∀ s, d = some s → s ≠ "" → jsOr d "Server error occurred" = s) ∧
      ((d = none ∨ d = some "") →
        jsOr d "Server error occurred" = "Server error occurred")) ∧
    (e.responseDetail = none → e.requestSent = true →
      detectWater (HttpOutcome.failure e) =
        Except.error "No response from server. Please check your connection.") ∧
    (e.responseDetail = none → e.requestSent = false →
      detectWater (HttpOutcome.failure e) =
        Except.error (if e.message = "" then "Failed to send request" else e.message)) := by
  refine ⟨?_, ?_, ?_⟩
  · intro d hd
    refine ⟨?_, ?_, ?_⟩
    · simp [detectWater, detectWaterErrorMessage, hd]
    · intro s hs hne
      subst hs
      simp [jsOr, jsOrStr, hne]
    · rintro (rfl | rfl)
      · rfl
      · rfl
  · intro hd hr
    simp [detectWater, detectWaterErrorMessage, hd, hr]
  · intro hd hr
    simp [detectWater, detectWaterErrorMessage, hd, hr, jsOrStr]

/-- Witness for C5 at concrete failures covering all three branches. -/
theorem C5_detectWater_error_mapping_witness :
    detectWater (HttpOutcome.failure ⟨some (some "AOI too large"), true, "x"⟩) =
      Except.error (jsOr (some "AOI too large") "Server error occurred") ∧
    detectWater (HttpOutcome.failure ⟨none, true, "x"⟩) =
      Except.error "No response from server. Please check your connection." ∧
    detectWater (HttpOutcome.failure ⟨none, false, "network down"⟩) =
      Except.error (if ("network down" : String) = "" then "Failed to send request"
        else "network down") := by
  refine ⟨?_, ?_, ?_⟩
  · exact ((C5_detectWater_error_mapping ⟨some (some "AOI too large"), true, "x"⟩).1
      (some "AOI too large") rfl).1
  · exact (C5_detectWater_error_mapping ⟨none, true, "x"⟩).2.1 rfl rfl
  · exact (C5_detectWater_error_mapping ⟨none, false, "network down"⟩).2.2 rfl rfl

/-! ## Results panel (frontend/src/components/ResultsPanel.js) -/

/-- JS truthiness of a nullable string (`metadata.warning && ...`):
false for `null`/`undefined` and for the empty string. -/
def jsStrTruthy (s : Option String) : Bool :=
  match s with
  | some str => !(str = "")
  | none => false

/-- JS truthiness of a nullable number (`metadata.aoi_area_km2 && ...`):
false for `null`/`undefined` and for 0. -/
def jsNumTruthy (q : Option ℚ) : Bool :=
  match q with
  | some x => !(x = 0)
  | none => false

/-- What `ResultsPanel` renders, with numeric formatting abstracted to
the exact values shown: the optional warning box, every metadata item,
the feature count and whether the download button is disabled. -/
structure PanelView where
  warningBox : Option String
  acquisitionDateText : String
  waterAreaShown : ℚ
  waterPercentageShown : ℚ
  processingTimeShown : ℚ
  featureCount : ℕ
  aoiAreaShown : Option ℚ
  parametersShown : Option (List (String × ℚ))
  downloadDisabled : Bool
deriving Repr, DecidableEq

/-- `featureCount` as computed by the panel:
`water_polygons?.features?.length || 0`. -/
def featureCountOf (results : DetectionResult) : ℕ :=
  match results.water_polygons with
  | some fc => fc.features.length
  | none => 0

/-- Embedding of the `ResultsPanel` component body: a total rendering
function over any detection result. -/
def renderResultsPanel (results : DetectionResult) : PanelView :=
  let m := results.metadata
  { warningBox := if jsStrTruthy m.warning then m.warning else none
    acquisitionDateText := jsOr m.acquisition_date "N/A"
    waterAreaShown := m.water_area_km2.getD 0
    waterPercentageShown := m.water_percentage.getD 0
    processingTimeShown := m.processing_time_seconds
    featureCount := featureCountOf results
    aoiAreaShown := if jsNumTruthy m.aoi_area_km2 then m.aoi_area_km2 else none
    parametersShown := m.parameters_used
    downloadDisabled := featureCountOf results = 0 }

/-- C6: a zero-feature result is rendered as a valid result — the
metadata items are shown exactly as for any result, the feature count
defaults to 0 when the polygon collection is absent, and the download
control is disabled precisely when the feature count is zero. -/
theorem C6_empty_result_valid (results : DetectionResult) :
    ((renderResultsPanel results).downloadDisabled = true ↔
      (renderResultsPanel results).featureCount = 0) ∧
    (results.water_polygons = none → (renderResultsPanel results).featureCount = 0) ∧
    (∀ fc, results.water_polygons = some fc →
      (renderResultsPanel results).featureCount = fc.features.length) ∧
    ((renderResultsPanel results).waterAreaShown =
      results.metadata.water_area_km2.getD 0 ∧
     (renderResultsPanel results).waterPercentageShown =
      results.metadata.water_percentage.getD 0 ∧
     (renderResultsPanel results).processingTimeShown =
      results.metadata.processing_time_seconds) := by
  refine ⟨?_, ?_, ?_, rfl, rfl, rfl⟩
  · simp [renderResultsPanel]
  · intro h
    simp [renderResultsPanel, featureCountOf, h]
  · intro fc h
    simp [renderResultsPanel, featureCountOf, h]

/-- Witness for C6: a result with an absent polygon collection renders
with feature count 0. -/
theorem C6_empty_result_valid_witness :
    (renderResultsPanel ⟨none, ⟨some "2024-01-01", some 0, some 0, 12, none, none, none⟩⟩).featureCount = 0 :=
  (C6_empty_result_valid ⟨none, ⟨some "2024-01-01", some 0, some 0, 12, none, none, none⟩⟩).2.1 rfl

/-- C8: the warning box is rendered iff `metadata.warning` is truthy,
and the warning never suppresses the rest of the panel: every other
rendered field is unchanged by the warning value. -/
theorem C8_warning_nonfatal (results : DetectionResult) (w : Option String) :
    ((renderResultsPanel results).warningBox.isSome = true ↔
      jsStrTruthy results.metadata.warning = true) ∧
    (jsStrTruthy results.metadata.warning = true →
      (renderResultsPanel results).warningBox = results.metadata.warning) ∧
    (let results' : DetectionResult :=
      { results with metadata := { results.metadata with warning := w } }
     (renderResultsPanel results').acquisitionDateText =
        (renderResultsPanel results).acquisitionDateText ∧
     (renderResultsPanel results').waterAreaShown =
        (renderResultsPanel results).waterAreaShown ∧
     (renderResultsPanel results').waterPercentageShown =
        (renderResultsPanel results).waterPercentageShown ∧
     (renderResultsPanel results').processingTimeShown =
        (renderResultsPanel results).processingTimeShown ∧
     (renderResultsPanel results').featureCount =
        (renderResultsPanel results).featureCount ∧
     (renderResultsPanel results').aoiAreaShown =
        (renderResultsPanel results).aoiAreaShown ∧
     (renderResultsPanel results').parametersShown =
        (renderResultsPanel results).parametersShown ∧
     (renderResultsPanel results').downloadDisabled =
        (renderResultsPanel results).downloadDisabled) := by
  refine ⟨?_, ?_, rfl, rfl, rfl, rfl, rfl, rfl, rfl, rfl⟩
  · by_cases h : jsStrTruthy results.metadata.warning = true
    · cases hw : results.metadata.warning with
      | none => rw [hw] at h; simp [jsStrTruthy] at h
      | some s => simp [renderResultsPanel, hw, h, hw ▸ h]
    · have h' : jsStrTruthy results.metadata.warning = false := by
        cases hb : jsStrTruthy results.metadata.warning
        · rfl
        · exact absurd hb h
      simp [renderResultsPanel, h']
  · intro h
    simp [renderResultsPanel, h]

/-- Witness for C8: a non-empty warning renders the warning box with
that warning while keeping the other fields. -/
theorem C8_warning_nonfatal_witness :
    (renderResultsPanel
      ⟨none, ⟨none, some 1, some 2, 3, none, none, some "degenerate histogram"⟩⟩).warningBox =
      some "degenerate histogram" :=
  (C8_warning_nonfatal
    ⟨none, ⟨none, some 1, some 2, 3, none, none, some "degenerate histogram"⟩⟩ none).2.1
    (by decide)

/-! ## Client-side progress simulation (frontend/src/services/api.js) -/

/-- The fixed stage sequence of `detectWater`'s progress simulation. -/
def stages : List String := ["imagery", "filters", "vectorizing"]

/-- The timer period of the progress simulation, in milliseconds. -/
def PROGRESS_INTERVAL_MS : ℕ := 15000

/-- The stage reported by the k-th `onProgress` call: the stage counter
starts at 0 and is advanced modulo `stages.length` on every timer
firing, so call k reports `stages[k % 3]`. -/
def stageAt (k : ℕ) : String :=
  stages.getD (k % stages.length) ""

/-- The `(time in ms, stage)` content of the k-th `onProgress` call:
call 0 fires immediately before the POST, call k fires at the k-th
timer period. The content depends only on k, never on backend state. -/
def progressCall (k : ℕ) : ℕ × String :=
  (PROGRESS_INTERVAL_MS * k, stageAt k)

/-- Whether the k-th `onProgress` call ever fires, given the request
outcome and the number of timer firings before the promise settles.
`clearInterval` sits after the `await` inside the `try` block, so it
runs only on the fulfilled path; on a rejected request (including an
error response, since axios rejects on HTTP error status) control jumps
to `catch`, which cannot reach the `try`-scoped `progressInterval`, and
the timer keeps firing for every later k. -/
def progressCallOccurs (fulfilled : Bool) (settleIntervals k : ℕ) : Bool :=
  if fulfilled then k ≤ settleIntervals else true

/-- The full list of progress calls on the fulfilled path: one immediate
call plus one per timer firing until `clearInterval` runs when the
successful response arrives after `settleIntervals` firings. -/
def fulfilledProgressCalls (settleIntervals : ℕ) : List (ℕ × String) :=
  (List.range (settleIntervals + 1)).map progressCall

/-- C7 counterexample: the claim says the timer is cleared when the
response arrives, but on a request failure settling at interval 0 the
5th call still fires (the `catch` block never clears the `try`-scoped
interval), whereas a successful response at interval 0 does stop it. -/
theorem C7_claim_counterexample :
    progressCallOccurs false 0 5 = true ∧
    progressCallOccurs true 0 5 = false ∧
    (0 : ℕ) < 5 := ⟨rfl, rfl, by decide⟩

/-- C7 (amended): the reported stage is a pure function of the number
of elapsed 15-second timer periods with no dependence on backend state:
call k carries time 15000·k and stage `stages[k % 3]`, starting at
"imagery" and cycling with period 3. The timer is cleared only when a
successful response arrives — the fulfilled path makes exactly
`settleIntervals + 1` calls — while after a failed request the
`try`-scoped interval is unreachable from `catch` and every later call
still fires. -/
theorem C7_progress_timer (settleIntervals k : ℕ) :
    (fulfilledProgressCalls settleIntervals).head? = some (0, "imagery") ∧
    (fulfilledProgressCalls settleIntervals).length = settleIntervals + 1 ∧
    (k ≤ settleIntervals →
      (fulfilledProgressCalls settleIntervals).get? k =
        some (PROGRESS_INTERVAL_MS * k, stages.getD (k % 3) "")) ∧
    stageAt (k + 3) = stageAt k ∧
    progressCall k = (PROGRESS_INTERVAL_MS * k, stages.getD (k % 3) "") ∧
    (∀ b, progressCallOccurs b settleIntervals k = true ↔
      (b = true → k ≤ settleIntervals)) := by
  refine ⟨?_, ?_, ?_, ?_, rfl, ?_⟩
  · cases settleIntervals with
    | zero => rfl
    | succ n =>
      simp [fulfilledProgressCalls, List.range_succ_eq_map]
      rfl
  · simp [fulfilledProgressCalls]
  · intro hk
    have hk' : k < settleIntervals + 1 := Nat.lt_succ_of_le hk
    simp [fulfilledProgressCalls, progressCall, List.getElem?_map,
      List.getElem?_range hk', stageAt, stages]
  · simp [stageAt, stages, Nat.add_mod_right]
  · intro b
    cases b <;> simp [progressCallOccurs]

/-- Witness for C7: with two timer firings before a successful response,
the third call is vectorizing at 30s. -/
theorem C7_progress_timer_witness :
    (fulfilledProgressCalls 2).get? 2 =
      some (PROGRESS_INTERVAL_MS * 2, stages.getD (2 % 3) "") :=
  (C7_progress_timer 2 2).2.2.1 (by decide)

/-! ## Threshold Selector (backend pipeline, spec §4.1) -/

/-- Minimum of a list of raster values (0 for an empty list). -/
def listMin (l : List ℚ) : ℚ := l.foldl min (l.headD 0)

/-- Maximum of a list of raster values (0 for an empty list). -/
def listMax (l : List ℚ) : ℚ := l.foldl max (l.headD 0)

/-- Default histogram bin count of the automatic threshold branch. -/
def DEFAULT_BINS : ℕ := 256

/-- Bin index of a value in a histogram of `bins` bins spanning
[lo, hi], clamped to the last bin. -/
def binIndex (lo hi : ℚ) (bins : ℕ) (v : ℚ) : ℕ :=
  if hi ≤ lo ∨ bins = 0 then 0
  else min (bins - 1) (⌊(v - lo) / (hi - lo) * (bins : ℚ)⌋).toNat

/-- Histogram of the valid pixel values over the observed value range,
with fixed-width integer bin counts. -/
def histogramOf (bins : ℕ) (vals : List ℚ) : List ℕ :=
  let lo := listMin vals
  let hi := listMax vals
  vals.foldl
    (fun h v =>
      let i := binIndex lo hi bins v
      h.set i (h.getD i 0 + 1))
    (List.replicate bins 0)

/-- Total pixel weight of the class of bins with index at most `t`. -/
def weightBelow (h : List ℕ) (t : ℕ) : ℚ := ((h.take (t + 1)).sum : ℕ)

/-- Total pixel weight of the class of bins with index above `t`. -/
def weightAbove (h : List ℕ) (t : ℕ) : ℚ := ((h.drop (t + 1)).sum : ℕ)

/-- First moment Σ i·h[i] of a histogram in bin-index space. -/
def moment (h : List ℕ) : ℚ :=
  (h.enum.map (fun p => (p.1 : ℚ) * (p.2 : ℚ))).sum

/-- Between-class variance of the two classes obtained by splitting the
histogram after bin `t` (computed in bin-index space, which preserves
the argmax under the affine map from bin index to value). -/
def betweenClassVariance (h : List ℕ) (t : ℕ) : ℚ :=
  let w0 := weightBelow h t
  let w1 := weightAbove h t
  if w0 = 0 ∨ w1 = 0 then 0
  else
    let mu0 := moment (h.take (t + 1)) / w0
    let mu1 := (moment h - moment (h.take (t + 1))) / w1
    w0 * w1 * (mu0 - mu1) ^ 2

/-- Split bin maximizing the between-class variance (Otsu's method). -/
def otsuSplit (h : List ℕ) : ℕ :=
  (List.range h.length).foldl
    (fun best t =>
      if betweenClassVariance h best < betweenClassVariance h t then t else best)
    0

/-- Threshold value at the upper edge of bin `t` of a histogram spanning
[lo, hi]. -/
def binUpperEdge (lo hi : ℚ) (bins t : ℕ) : ℚ :=
  if bins = 0 then lo else lo + (hi - lo) * ((t : ℚ) + 1) / (bins : ℚ)

/-- Provenance tag of the selected threshold. -/
inductive Provenance where
  | automatic
  | manual
deriving Repr, DecidableEq

/-- Output of the Threshold Selector: the scalar threshold in dB, its
provenance tag, and whether the histogram branch ran. -/
structure ThresholdSelection where
  threshold : ℚ
  provenance : Provenance
  histogramComputed : Bool
deriving Repr, DecidableEq

/-- Modelled from the spec: the backend Threshold Selector (spec §4.1)
belongs to the repository's backend pipeline, whose source is not among
the provided files (only its frontend callers and documentation are).
Per the spec: the manual branch uses a supplied override verbatim with
provenance manual and performs no histogram computation; the automatic
branch builds a 256-bin histogram spanning the observed value range of
the valid pixels and picks the split maximizing between-class variance
(Otsu), with provenance automatic. -/
def thresholdSelector (primaryOverride : Option ℚ) (validPixels : List ℚ) :
    ThresholdSelection :=
  match primaryOverride with
  | some t => { threshold := t, provenance := .manual, histogramComputed := false }
  | none =>
    let lo := listMin validPixels
    let hi := listMax validPixels
    let h := histogramOf DEFAULT_BINS validPixels
    let t := otsuSplit h
    { threshold := binUpperEdge lo hi DEFAULT_BINS t
      provenance := .automatic
      histogramComputed := true }

/-- C2: supplying a manual primary threshold bypasses the automatic
branch entirely — no histogram is computed, the provenance tag is
manual, and the selected threshold equals the override exactly; without
an override the histogram branch runs with provenance automatic. -/
theorem C2_manual_override_bypass (t : ℚ) (validPixels : List ℚ) :
    thresholdSelector (some t) validPixels =
      { threshold := t, provenance := Provenance.manual, histogramComputed := false } ∧
    (thresholdSelector none validPixels).histogramComputed = true ∧
    (thresholdSelector none validPixels).provenance = Provenance.automatic :=
  ⟨rfl, rfl, rfl⟩

end SARFlood
